import Mathlib

/-!
Verification of the glfinancial simulation/tax/loan engine.

The Python source is shallowly embedded: real-valued quantities become `ℚ`,
Python `round` (banker's rounding) becomes `pyRound`, Python `int()`
(truncation toward zero) becomes `pyInt`, dictionaries keyed by year become
functions `ℕ → Option _`, and raised exceptions become `Except`/`Option`
results.
-/

/-- Python's built-in `round` to an integer: round half to even. -/
def pyRound (q : ℚ) : ℤ :=
  if q - ⌊q⌋ < 1/2 then ⌊q⌋
  else if 1/2 < q - ⌊q⌋ then ⌊q⌋ + 1
  else if ⌊q⌋ % 2 = 0 then ⌊q⌋ else ⌊q⌋ + 1

/-- Python's `round(x, 0)`, which returns a (here exact) number. -/
def pyRoundQ (q : ℚ) : ℚ := (pyRound q : ℚ)

/-- Python's `int()` cast: truncation toward zero. -/
def pyInt (q : ℚ) : ℤ := if 0 ≤ q then ⌊q⌋ else ⌈q⌉

/-- Python's `str.upper()` (for the ASCII state keys used here). -/
def pyUpper (s : String) : String := ⟨s.data.map Char.toUpper⟩

/-! ## Tax bracket tables (from GLTaxTools.py) -/

def single_filer_tax_rates : List (ℚ × ℚ) :=
  [(9700, 0.10), (39475, 0.12), (84200, 0.22), (160725, 0.24),
   (204100, 0.32), (510300, 0.35), (1000 ^ 5, 0.37)]

def married_filer_tax_rates : List (ℚ × ℚ) :=
  [(19400, 0.10), (78950, 0.12), (168400, 0.22), (321450, 0.24),
   (408200, 0.32), (612350, 0.35), (1000 ^ 5, 0.37)]

def ca_tax_rates : List (ℚ × ℚ) :=
  [(8544, 0.01), (20255, 0.02), (31969, 0.04), (44377, 0.06),
   (56085, 0.08), (286492, 0.093), (343788, 0.103), (572980, 0.113),
   (1000 ^ 5, 0.123)]

def ma_tax_rates : List (ℚ × ℚ) := [(1000 ^ 5, 0.0505)]

def nc_tax_rates : List (ℚ × ℚ) := [(1000 ^ 5, 0.0525)]

def example_tax_rates : List (ℚ × ℚ) :=
  [(10000, 0.01), (40000, 0.02), (80000, 0.03), (1000 ^ 5, 0.04)]

/-- Lookup in `tax_at_location` for a non-`None` state string (already uppercased). -/
def stateRatesFor (s : String) : Option (List (ℚ × ℚ)) :=
  if s = "CA" then some ca_tax_rates
  else if s = "MA" then some ma_tax_rates
  else if s = "NC" then some nc_tax_rates
  else if s = "EXAMPLE" then some example_tax_rates
  else none

/-- Lookup in `federal_tax_rates`. -/
def federalRatesFor (s : String) : Option (List (ℚ × ℚ)) :=
  if s = "single" then some single_filer_tax_rates
  else if s = "married" then some married_filer_tax_rates
  else none

/-- Lookup in `federal_standard_deductions`. -/
def deductionFor (s : String) : Option ℚ :=
  if s = "single" then some (12000 : ℚ)
  else if s = "married" then some (24000 : ℚ)
  else none

/-- The configuration errors the tax code raises (Python `ValueError` /
`KeyError` in `TaxTable.__init__`, `change_status`, `change_state`). -/
inductive ConfigError where
  | configError
deriving DecidableEq, Repr

structure TaxTable where
  federal : List (ℚ × ℚ)
  state : List (ℚ × ℚ)
  standard_deduction : ℚ
deriving DecidableEq, Repr

/-- Constructor `TaxTable.__init__(status, state)`: status must be a key of
`federal_tax_rates`, a non-`None` state is uppercased and looked up in
`tax_at_location` (a missing key raises). -/
def mkTaxTable (status : String) (state : Option String) : Except ConfigError TaxTable :=
  match federalRatesFor status, deductionFor status with
  | some fed, some ded =>
    match state with
    | none => Except.ok ⟨fed, [], ded⟩
    | some s =>
      match stateRatesFor (pyUpper s) with
      | some t => Except.ok ⟨fed, t, ded⟩
      | none => Except.error ConfigError.configError
  | _, _ => Except.error ConfigError.configError

/-- Method `TaxTable.change_state(state)` as a lookup:
`None` clears the state table; otherwise uppercase and index `tax_at_location`
(an unknown key raises). -/
def change_state_lookup : Option String → Except ConfigError (List (ℚ × ℚ))
  | none => Except.ok []
  | some s => match stateRatesFor (pyUpper s) with
    | some t => Except.ok t
    | none => Except.error ConfigError.configError

/-- Method `TaxTable.change_status(status)` as a lookup: status must be a key of
`federal_tax_rates`, returning the federal table and standard deduction. -/
def change_status_lookup : Option String → Except ConfigError (List (ℚ × ℚ) × ℚ)
  | none => Except.error ConfigError.configError
  | some s =>
    if s = "single" then Except.ok (single_filer_tax_rates, (12000 : ℚ))
    else if s = "married" then Except.ok (married_filer_tax_rates, (24000 : ℚ))
    else Except.error ConfigError.configError

/-- Method `TaxTable.set_from_fm(financialmodel, year)`: look up residence and status
for the year (`dict.get(year, None)`), then `change_state` and
`change_status`. -/
def TaxTable.set_from_fm (residences statusMap : ℕ → Option String) (year : ℕ) :
    Except ConfigError TaxTable :=
  match change_state_lookup (residences year) with
  | Except.error e => Except.error e
  | Except.ok st =>
    match change_status_lookup (statusMap year) with
    | Except.error e => Except.error e
    | Except.ok (fed, ded) => Except.ok ⟨fed, st, ded⟩

/-- The body of the bracket loops in `TaxTable.incometax`: for each
`(end, rate)` pair accumulate `max(min(pretax - previous_end, end -
previous_end), 0) * rate`, carrying `previous_end := end`. -/
def bracketLoop (pretax : ℚ) : ℚ → List (ℚ × ℚ) → ℚ
  | _, [] => 0
  | prev, (e, r) :: rest =>
    max (min (pretax - prev) (e - prev)) 0 * r + bracketLoop pretax e rest

/-- The value `previous_end` holds after a bracket loop finishes. -/
def finalBound : ℚ → List (ℚ × ℚ) → ℚ
  | prev, [] => prev
  | _, (e, _) :: rest => finalBound e rest

/-- Method `TaxTable.incometax(pretax_income_arg)` for a scalar argument: subtract the
standard deduction, walk the federal table starting at `previous_end = 0`,
then walk the state table with `previous_end` carried over from the federal
loop (the source does not reset it), and round the total. -/
def TaxTable.incometax (tt : TaxTable) (x : ℚ) : ℚ :=
  pyRoundQ (bracketLoop (x - tt.standard_deduction) 0 tt.federal +
    bracketLoop (x - tt.standard_deduction) (finalBound 0 tt.federal) tt.state)

/-- The income-tax computation as the spec words it: federal pass and state
pass each walk their own full table in ascending order over the same
deduction-adjusted income, the state pass starting again from an income floor
of 0. -/
def TaxTable.incometaxSpec (tt : TaxTable) (x : ℚ) : ℚ :=
  pyRoundQ (bracketLoop (x - tt.standard_deduction) 0 tt.federal +
    bracketLoop (x - tt.standard_deduction) 0 tt.state)

/-- All marginal rates in a bracket table are nonnegative. -/
def ratesNonneg (t : List (ℚ × ℚ)) : Prop := ∀ p ∈ t, 0 ≤ p.2

/-- All upper bounds in a bracket table are nonnegative. -/
def boundsNonneg (t : List (ℚ × ℚ)) : Prop := ∀ p ∈ t, 0 ≤ p.1

/-- The concrete configuration `TaxTable('single', 'CA')`. -/
def ttSingleCA : TaxTable := ⟨single_filer_tax_rates, ca_tax_rates, 12000⟩

/-- The concrete configuration `TaxTable('single', None)`. -/
def ttSingleNone : TaxTable := ⟨single_filer_tax_rates, [], 12000⟩


/-! ## Financial events and loans (from GLFinancial.py / GLLoanTools.py) -/

/-- Constant `Parameters().max_years`. -/
def max_years : ℕ := 75

/-- Constant `Parameters().min_apr`. -/
def min_apr : ℚ := 0.75

/-- Constant `Parameters().max_apr`. -/
def max_apr : ℚ := 1.25

/-- The bare `ValueError` raised by `define_yearly`'s year-range check. -/
inductive RangeError where
  | invalidRange
deriving DecidableEq, Repr

structure FinancialEvent where
  name : String
  definedas : String
  cashflow : ℕ → Option ℚ
  nwflow : ℕ → Option ℚ
  agi_impacting : Bool

/-- Constructor `FinancialEvent.__init__`. -/
def FinancialEvent.init : FinancialEvent :=
  ⟨"Unnamed", "NeverDefined", fun _ => none, fun _ => none, false⟩

/-- Assignment `self.cashflow[year] = amount` on a year-keyed dictionary. -/
def updateMap (m : ℕ → Option ℚ) (k : ℕ) (v : ℚ) : ℕ → Option ℚ :=
  fun k2 => if k2 = k then some v else m k2

/-- Builder `FinancialEvent.define_single(amount, name, year, agi_impacting, nw_amount)`.
When `agi_impacting` is `None` the source computes the default
(`True if amount >= 0 else False`) into the local variable `agi_impacting`
and never writes `self.agi_impacting`, so the object keeps the constructor
value `False`; only the explicit branch assigns the attribute. -/
def FinancialEvent.define_single (fe : FinancialEvent) (amount : ℚ) (nm : String)
    (year : ℕ) (agi_impacting : Option Bool) (nw_amount : ℚ) : FinancialEvent :=
  let fe2 : FinancialEvent :=
    { fe with
      name := nm,
      definedas := "single",
      cashflow := updateMap fe.cashflow year amount,
      nwflow := updateMap fe.nwflow year nw_amount }
  match agi_impacting with
  | none => fe2
  | some b => { fe2 with agi_impacting := b }

/-- Builder `FinancialEvent.define_yearly(...)`: the same local-variable handling of
`agi_impacting` as `define_single`, the `ValueError` range check, then the
fill loop over `np.arange(year_start, year_end)` with growth
`apr ** (year - year_start)`. -/
def FinancialEvent.define_yearly (fe : FinancialEvent) (yearly_amount : ℚ)
    (nm : String) (yearly_nw_amount : ℚ) (year_start year_end : ℕ)
    (agi_impacting : Option Bool) (apr : ℚ) (definedas : String) :
    Except RangeError FinancialEvent :=
  let fe2 : FinancialEvent :=
    { fe with
      name := nm,
      definedas := definedas }
  let fe3 : FinancialEvent := match agi_impacting with
    | none => fe2
    | some b => { fe2 with agi_impacting := b }
  if year_start > year_end ∨ year_end > max_years then
    Except.error RangeError.invalidRange
  else
    Except.ok ((List.range' year_start (year_end - year_start)).foldl
      (fun acc year =>
        { acc with
          cashflow := updateMap acc.cashflow year (yearly_amount * apr ^ (year - year_start)),
          nwflow := updateMap acc.nwflow year (yearly_nw_amount * apr ^ (year - year_start)) })
      fe3)

/-- Builder `FinancialEvent.define_monthly(...)`: multiplies monthly amounts by 12 and
delegates to `define_yearly`. -/
def FinancialEvent.define_monthly (fe : FinancialEvent) (monthly_amount : ℚ)
    (nm : String) (monthly_nw_amount : ℚ) (year_start year_end : ℕ)
    (agi_impacting : Option Bool) (apr : ℚ) : Except RangeError FinancialEvent :=
  fe.define_yearly (monthly_amount * 12) nm (monthly_nw_amount * 12)
    year_start year_end agi_impacting apr "monthly"

/-- Accessor `fe.gross_income(year) = self.cashflow.get(year, 0)`. -/
def FinancialEvent.gross_income (fe : FinancialEvent) (year : ℕ) : ℚ :=
  (fe.cashflow year).getD 0

/-- Accessor `fe.adjusted_gross_income(year)`. -/
def FinancialEvent.adjusted_gross_income (fe : FinancialEvent) (year : ℕ) : ℚ :=
  if fe.agi_impacting then fe.gross_income year else 0

/-- Accessor `fe.explicit_nw_impact(year) = self.nwflow.get(year, 0)`. -/
def FinancialEvent.explicit_nw_impact (fe : FinancialEvent) (year : ℕ) : ℚ :=
  (fe.nwflow year).getD 0

/-- Partial geometric sum `1 + m + ... + m^(k-1)`, the coefficient of the
payment in the unrolled amortization recurrence. -/
def geomSum (m : ℚ) : ℕ → ℚ
  | 0 => 0
  | k+1 => 1 + m * geomSum m k

/-- The amortization recurrence of the spec:
`remaining(0) = principal`, `remaining(t) = remaining(t-1) * apr - payment`. -/
def loanRemaining (P m p : ℚ) : ℕ → ℚ
  | 0 => P
  | t+1 => loanRemaining P m p t * m - p

/-- Function `pay_yearly_on_loan(initial_value, apr, duration_years, yearly_payment)`:
its loop runs over `np.arange(1, duration_years)`, i.e. years
`1 .. duration_years - 1`, and it returns `principal[duration_years - 1]`.
For `duration_years ≤ 1` the loop body never runs and `return principal[year]`
raises (`year` is unbound), modelled as `none`. -/
def pay_yearly_on_loan (initial_value apr : ℚ) (duration_years : ℕ)
    (yearly_payment : ℚ) : Option ℚ :=
  if duration_years ≤ 1 then none
  else some (loanRemaining initial_value apr yearly_payment (duration_years - 1))

/-- Modelled from the spec: `find_yearly_payment` calls the external
`scipy.optimize.brentq` ("a bracketed root-finding method" per the spec) on
the objective `pay_yearly_on_loan(loan_value, apr, duration_years, ·)`.
That objective is affine in the payment, with unique root
`loan_value * apr^(duration_years-1) / geomSum apr (duration_years-1)`,
so the bracketed root-finder is modelled as returning that exact root. -/
def exactYearlyRoot (loan_value apr : ℚ) (duration_years : ℕ) : ℚ :=
  loan_value * apr ^ (duration_years - 1) / geomSum apr (duration_years - 1)

/-- Function `find_yearly_payment(loan_value, apr, duration_years)`: the root of the
objective `pay_yearly_on_loan(loan_value, apr, duration_years, ·)`, rounded
by Python `round`; `none` when the objective itself raises
(`duration_years ≤ 1`). -/
def find_yearly_payment (loan_value apr : ℚ) (duration_years : ℕ) : Option ℤ :=
  if duration_years ≤ 1 then none
  else some (pyRound (exactYearlyRoot loan_value apr duration_years))

/-- The validation condition of `FinancialEvent.define_loan`:
`year_start + duration > Parameters().max_years or duration < 0 or
Parameters().min_apr > apr > Parameters().max_apr`.  The last clause is the
Python chained comparison, i.e. `(0.75 > apr) and (apr > 1.25)`. -/
def define_loan_invalid (year_start duration : ℤ) (apr : ℚ) : Bool :=
  decide (year_start + duration > (max_years : ℤ)) || decide (duration < 0) ||
    (decide (min_apr > apr) && decide (apr > max_apr))

/-- The loan balance left after `define_loan`'s full payment schedule.  With
`p = find_yearly_payment(P, m, n)`, the fill loop covers
`np.arange(year_start, year_start + n)` — n payment-years — and then
overwrites the last of them with the adjusted installment
`p + int(pay_yearly_on_loan(P, m, n-1, p))` (after the loop
`year - year_start = n - 1`, so the inner call returns `remaining(n-2)`).
The balance after the n scheduled payments, of which the first `n-1` are the
regular `p`, is therefore
`remaining(n-1)*m - (p + int(remaining(n-2))) =
remaining(n) - int(remaining(n-2))`; `none` where the source raises
(`n ≤ 2`: either the payment solve or the inner call dies). -/
def loanPostPayoffBalance (P m : ℚ) (n : ℕ) : Option ℚ :=
  match find_yearly_payment P m n with
  | none => none
  | some p =>
    match pay_yearly_on_loan P m (n - 1) (p : ℚ) with
    | none => none
    | some rem2 =>
      some (loanRemaining P m (p : ℚ) n - ((pyInt rem2 : ℤ) : ℚ))

/-- Computation of `simmany`'s `simkeys = [simnum for simnum in np.arange(1, nruns)]`. -/
def simmanySimkeys (nruns : ℕ) : List ℕ := List.range' 1 (nruns - 1)

/-- The number of `simonce` trajectories `simmany` actually runs:
`simresults = [self.simonce(simkey=simkey, ...) for simkey in simkeys]`. -/
def simmanyRunTotal (nruns : ℕ) : ℕ := (simmanySimkeys nruns).length


/-! ## The single-run simulators -/

/-- Recognition predicate: the statuses `change_status` accepts
(keys of `federal_tax_rates`; `None` is not one). -/
def recognizedStatus : Option String → Bool
  | none => false
  | some s => s = "single" || s = "married"

/-- Recognition predicate: the residences `change_state` accepts
(`None`, or a string whose uppercase is a key of `tax_at_location`). -/
def recognizedState : Option String → Bool
  | none => true
  | some s => (stateRatesFor (pyUpper s)).isSome

/-- The federal table selected for a recognized status
(junk value `single` otherwise, used only under `recognizedStatus`). -/
def statusFederal (o : Option String) : List (ℚ × ℚ) :=
  if o = some "married" then married_filer_tax_rates else single_filer_tax_rates

/-- The standard deduction selected for a recognized status. -/
def statusDeduction (o : Option String) : ℚ :=
  if o = some "married" then 24000 else 12000

/-- The state table selected for a recognized residence. -/
def stateTableOf : Option String → List (ℚ × ℚ)
  | none => []
  | some s => (stateRatesFor (pyUpper s)).getD []

/-- One per-year row of `simonce`'s results dictionary.  The year-0 seed row
carries only `Net Worth` and `Explicit NW Impact`; since missing keys are
read back with `.get(key, 0)`, they are modelled as 0. -/
structure SimYear where
  netWorth : ℚ
  grossIncome : ℚ
  adjustedGrossIncome : ℚ
  taxes : ℚ
  expenses : ℚ
  explicitNW : ℚ
  netGain : ℚ

/-- The model state `FinancialModel` (GLFinancial.py) carries into `simonce`. -/
structure FinancialModel where
  fevents : List FinancialEvent
  residences : ℕ → Option String
  status : ℕ → Option String

/-- The `simonce` year-0 seed:
`{'Net Worth': initial_nw, 'Explicit NW Impact': sum of explicit_nw_impact(0)}`. -/
def simonceSeed (fm : FinancialModel) (initial_nw : ℚ) : SimYear :=
  ⟨initial_nw, 0, 0, 0, 0,
    (fm.fevents.map (fun fe => fe.explicit_nw_impact 0)).sum, 0⟩

/-- One loop iteration of `simonce`, specialized to `nw_apr_stdev = 0`, where
the normal draw equals its mean and the source's floor gives
`nw_apr = max(0, nw_apr_avg)` every year.  Net worth is
`last['Net Worth'] + interest + last.get('Net Gain', 0) +
last['Explicit NW Impact']` with no ceiling of any kind. -/
def simonceStep (fm : FinancialModel) (nw_apr_avg : ℚ) (cur_year : ℕ)
    (last : SimYear) : Except ConfigError SimYear :=
  let nw_apr := max 0 nw_apr_avg
  let nwInterest := last.netWorth * (nw_apr - 1)
  let nw := last.netWorth + nwInterest + last.netGain + last.explicitNW
  let gi := (fm.fevents.map (fun fe => max 0 (fe.gross_income cur_year))).sum
  let agi := (fm.fevents.map (fun fe => max 0 (fe.adjusted_gross_income cur_year))).sum
  match TaxTable.set_from_fm fm.residences fm.status cur_year with
  | Except.error e => Except.error e
  | Except.ok tt =>
    let tax := tt.incometax agi
    let expenses := |(fm.fevents.map (fun fe => min 0 (fe.gross_income cur_year))).sum|
    let enw := (fm.fevents.map (fun fe => fe.explicit_nw_impact cur_year)).sum
    Except.ok ⟨nw, gi, agi, tax, expenses, enw, (gi - tax) - expenses⟩

/-- The deterministic (`nw_apr_stdev = 0`) `simonce` trajectory, row `t`. -/
def simonceTraj (fm : FinancialModel) (initial_nw nw_apr_avg : ℚ) :
    ℕ → Except ConfigError SimYear
  | 0 => Except.ok (simonceSeed fm initial_nw)
  | t+1 =>
    match simonceTraj fm initial_nw nw_apr_avg t with
    | Except.error e => Except.error e
    | Except.ok last => simonceStep fm nw_apr_avg (t+1) last

/-- A model with no events, no residence, single filer throughout. -/
def fmNoEvents : FinancialModel := ⟨[], fun _ => none, fun _ => some "single"⟩

/-! ## The tax-variant engine (src/tax/glfinancial.py) -/

/-- Table `tax_rates` of the tax-variant module. -/
def tax_rates : List (ℚ × ℚ) :=
  [(9700, 0.10), (39475, 0.12), (84200, 0.22), (160725, 0.24),
   (204100, 0.32), (510300, 0.35), (1000 ^ 5, 0.37)]

/-- The tax-variant `incometax(pretax_income_arg, state_tax)`: hard-coded
standard exemption 12200, the same federal-then-state walk (again without
resetting `previous_end` between the loops), rounded. -/
def tax_incometax (x : ℚ) (state_tax : List (ℚ × ℚ)) : ℚ :=
  pyRoundQ (bracketLoop (x - 12200) 0 tax_rates +
    bracketLoop (x - 12200) (finalBound 0 tax_rates) state_tax)

structure RecurringCashflow where
  yearly_flow : ℚ
  name : String
  yearly_nw : ℚ
  yearly_apr : ℚ
  year_start : ℕ
  year_end : ℕ
  taxable : Bool

/-- Method `RecurringCashflow.gross_income(year)`. -/
def RecurringCashflow.gross_income (rc : RecurringCashflow) (year : ℕ) : ℚ :=
  if rc.year_start ≤ year ∧ year ≤ rc.year_end ∧ 0 < rc.yearly_flow then
    rc.yearly_flow * rc.yearly_apr ^ (year - rc.year_start)
  else 0

/-- Method `RecurringCashflow.taxable_amount(year)`. -/
def RecurringCashflow.taxable_amount (rc : RecurringCashflow) (year : ℕ) : ℚ :=
  if rc.year_start ≤ year ∧ year ≤ rc.year_end ∧ rc.taxable then
    rc.yearly_flow * rc.yearly_apr ^ (year - rc.year_start)
  else 0

/-- Method `RecurringCashflow.expenses(year)` (negative flows, returned negative). -/
def RecurringCashflow.expenses (rc : RecurringCashflow) (year : ℕ) : ℚ :=
  if rc.year_start ≤ year ∧ year ≤ rc.year_end ∧ rc.yearly_flow < 0 then
    rc.yearly_flow * rc.yearly_apr ^ (year - rc.year_start)
  else 0

/-- Method `RecurringCashflow.nwflow(year)`. -/
def RecurringCashflow.nwflow (rc : RecurringCashflow) (year : ℕ) : ℚ :=
  if rc.year_start ≤ year ∧ year ≤ rc.year_end then
    rc.yearly_nw * rc.yearly_apr ^ (year - rc.year_start)
  else 0

structure CashflowModel where
  cashflows : List RecurringCashflow
  state_tax : List (ℚ × ℚ)

def CashflowModel.get_gross_income (cfm : CashflowModel) (year : ℕ) : ℚ :=
  (cfm.cashflows.map (fun rc => rc.gross_income year)).sum

def CashflowModel.get_taxable_income (cfm : CashflowModel) (year : ℕ) : ℚ :=
  max 0 (cfm.cashflows.map (fun rc => rc.taxable_amount year)).sum

def CashflowModel.get_expenses (cfm : CashflowModel) (year : ℕ) : ℚ :=
  (cfm.cashflows.map (fun rc => rc.expenses year)).sum

def CashflowModel.get_nwflow (cfm : CashflowModel) (year : ℕ) : ℚ :=
  (cfm.cashflows.map (fun rc => rc.nwflow year)).sum

/-- One per-year row of the tax-variant `FinancialModel.sim` (every stored
value is passed through Python `int()`). -/
structure TaxSimRow where
  nwInterest : ℚ
  netWorth : ℚ
  grossIncome : ℚ
  taxableIncome : ℚ
  expenses : ℚ
  incomeTax : ℚ
  explicitNWGrowth : ℚ
  excessCash : ℚ

/-- The tax-variant `sim`'s year-0 seed row. -/
def taxSimSeed (initial_nw : ℚ) : TaxSimRow := ⟨0, initial_nw, 0, 0, 0, 0, 0, 0⟩

/-- One loop iteration of the tax-variant `FinancialModel.sim`, specialized to
`nw_apr_stdev = 0` (the draw equals its mean; this variant does not floor the
draw at 0).  Here net worth IS capped:
`min(self.max_nw, int(lastNW + interest + lastExplicitNWGrowth +
lastExcessCash))`. -/
def taxSimStep (max_nw : ℚ) (cfm : CashflowModel) (nw_apr_avg : ℚ) (year : ℕ)
    (last : TaxSimRow) : TaxSimRow :=
  let nw_apr := nw_apr_avg
  let nwi := ((pyInt (last.netWorth * (nw_apr - 1)) : ℤ) : ℚ)
  let nw := min max_nw
    ((pyInt (last.netWorth + nwi + last.explicitNWGrowth + last.excessCash) : ℤ) : ℚ)
  let gi := ((pyInt (cfm.get_gross_income year) : ℤ) : ℚ)
  let ti := ((pyInt (cfm.get_taxable_income year) : ℤ) : ℚ)
  let ex := ((pyInt (cfm.get_expenses year) : ℤ) : ℚ)
  let tax := ((pyInt (tax_incometax ti cfm.state_tax) : ℤ) : ℚ)
  let enw := ((pyInt (cfm.get_nwflow year) : ℤ) : ℚ)
  let excess := ((pyInt (gi + ex - tax) : ℤ) : ℚ)
  ⟨nwi, nw, gi, ti, ex, tax, enw, excess⟩

/-- The deterministic tax-variant trajectory, row `t`. -/
def taxSimTraj (max_nw : ℚ) (cfm : CashflowModel) (initial_nw nw_apr_avg : ℚ) :
    ℕ → TaxSimRow
  | 0 => taxSimSeed initial_nw
  | t+1 => taxSimStep max_nw cfm nw_apr_avg (t+1)
      (taxSimTraj max_nw cfm initial_nw nw_apr_avg t)

/-- A cashflow model with no cashflows and no state tax. -/
def cfmEmpty : CashflowModel := ⟨[], []⟩

/-! ## Theorems -/

theorem pyRound_ge_floor (q : ℚ) : ⌊q⌋ ≤ pyRound q := by
  unfold pyRound
  split_ifs <;> omega

theorem pyRound_le_floor_add_one (q : ℚ) : pyRound q ≤ ⌊q⌋ + 1 := by
  unfold pyRound
  split_ifs <;> omega

theorem pyRound_nonneg (q : ℚ) (h : 0 ≤ q) : 0 ≤ pyRound q := by
  have h1 := pyRound_ge_floor q
  have h2 : (0 : ℤ) ≤ ⌊q⌋ := Int.floor_nonneg.mpr h
  omega

theorem pyRound_mono {x y : ℚ} (hxy : x ≤ y) : pyRound x ≤ pyRound y := by
  rcases lt_or_eq_of_le (Int.floor_le_floor hxy) with hf | hf
  · calc pyRound x ≤ ⌊x⌋ + 1 := pyRound_le_floor_add_one x
      _ ≤ ⌊y⌋ := by omega
      _ ≤ pyRound y := pyRound_ge_floor y
  · unfold pyRound
    rw [← hf]
    have hxy' : x - (⌊x⌋ : ℚ) ≤ y - (⌊x⌋ : ℚ) := by linarith
    split_ifs <;> first | omega | linarith

theorem pyRoundQ_mono {x y : ℚ} (hxy : x ≤ y) : pyRoundQ x ≤ pyRoundQ y := by
  unfold pyRoundQ
  exact_mod_cast pyRound_mono hxy

theorem pyRoundQ_nonneg (q : ℚ) (h : 0 ≤ q) : 0 ≤ pyRoundQ q := by
  unfold pyRoundQ
  exact_mod_cast pyRound_nonneg q h

theorem pyInt_nonneg (q : ℚ) (h : 0 ≤ q) : 0 ≤ pyInt q := by
  unfold pyInt
  rw [if_pos h]
  exact Int.floor_nonneg.mpr h

theorem pyInt_le_self (q : ℚ) (h : 0 ≤ q) : (pyInt q : ℚ) ≤ q := by
  unfold pyInt
  rw [if_pos h]
  exact Int.floor_le q

theorem bracketLoop_mono (t : List (ℚ × ℚ)) (hr : ratesNonneg t) :
    ∀ (prev : ℚ) {x y : ℚ}, x ≤ y → bracketLoop x prev t ≤ bracketLoop y prev t := by
  induction t with
  | nil => intro prev x y _; simp [bracketLoop]
  | cons hd tl ih =>
    intro prev x y hxy
    obtain ⟨e, r⟩ := hd
    have hrhd : 0 ≤ r := hr (e, r) (List.mem_cons_self _ _)
    have hrtl : ratesNonneg tl := fun p hp => hr p (List.mem_cons_of_mem _ hp)
    simp only [bracketLoop]
    have hterm : max (min (x - prev) (e - prev)) 0 * r ≤
        max (min (y - prev) (e - prev)) 0 * r := by
      apply mul_le_mul_of_nonneg_right _ hrhd
      exact max_le_max (min_le_min (by linarith) le_rfl) le_rfl
    exact add_le_add hterm (ih hrtl e hxy)

theorem bracketLoop_nonneg (t : List (ℚ × ℚ)) (hr : ratesNonneg t) :
    ∀ (pretax prev : ℚ), 0 ≤ bracketLoop pretax prev t := by
  induction t with
  | nil => intro pretax prev; simp [bracketLoop]
  | cons hd tl ih =>
    intro pretax prev
    obtain ⟨e, r⟩ := hd
    have hrhd : 0 ≤ r := hr (e, r) (List.mem_cons_self _ _)
    have hrtl : ratesNonneg tl := fun p hp => hr p (List.mem_cons_of_mem _ hp)
    simp only [bracketLoop]
    have : 0 ≤ max (min (pretax - prev) (e - prev)) 0 * r :=
      mul_nonneg (le_max_right _ 0) hrhd
    have := ih hrtl pretax e
    linarith

theorem bracketLoop_eq_zero (t : List (ℚ × ℚ)) (hb : boundsNonneg t) :
    ∀ (pretax prev : ℚ), pretax ≤ 0 → 0 ≤ prev → bracketLoop pretax prev t = 0 := by
  induction t with
  | nil => intro pretax prev _ _; simp [bracketLoop]
  | cons hd tl ih =>
    intro pretax prev hp hprev
    obtain ⟨e, r⟩ := hd
    have hbhd : 0 ≤ e := hb (e, r) (List.mem_cons_self _ _)
    have hbtl : boundsNonneg tl := fun p hp => hb p (List.mem_cons_of_mem _ hp)
    simp only [bracketLoop]
    have hmax : max (min (pretax - prev) (e - prev)) 0 = 0 := by
      apply max_eq_right
      exact le_trans (min_le_left _ _) (by linarith)
    rw [hmax, zero_mul, zero_add]
    exact ih hbtl pretax e hp hbhd

theorem finalBound_nonneg (t : List (ℚ × ℚ)) (hb : boundsNonneg t) :
    ∀ (prev : ℚ), 0 ≤ prev → 0 ≤ finalBound prev t := by
  induction t with
  | nil => intro prev hprev; simpa [finalBound] using hprev
  | cons hd tl ih =>
    intro prev _
    obtain ⟨e, r⟩ := hd
    have hbhd : 0 ≤ e := hb (e, r) (List.mem_cons_self _ _)
    have hbtl : boundsNonneg tl := fun p hp => hb p (List.mem_cons_of_mem _ hp)
    simpa [finalBound] using ih hbtl e hbhd

theorem mkTaxTable_cases {s : String} {st : Option String} {tt : TaxTable}
    (h : mkTaxTable s st = Except.ok tt) :
    (tt.federal = single_filer_tax_rates ∨ tt.federal = married_filer_tax_rates) ∧
    (tt.state = [] ∨ tt.state = ca_tax_rates ∨ tt.state = ma_tax_rates ∨
      tt.state = nc_tax_rates ∨ tt.state = example_tax_rates) := by
  unfold mkTaxTable federalRatesFor deductionFor at h
  by_cases h1 : s = "single" <;> by_cases h2 : s = "married" <;>
      simp only [h1, h2, if_true, if_false, ite_true, ite_false] at h
  all_goals first
    | (cases h)
    | (cases st with
       | none =>
         simp only [] at h
         cases h
         constructor
         · first | exact Or.inl rfl | exact Or.inr rfl
         · exact Or.inl rfl
       | some str =>
         revert h
         unfold stateRatesFor
         by_cases hca : pyUpper str = "CA" <;> by_cases hma : pyUpper str = "MA" <;>
           by_cases hnc : pyUpper str = "NC" <;> by_cases hex : pyUpper str = "EXAMPLE" <;>
           simp only [hca, hma, hnc, hex, if_true, if_false, ite_true, ite_false] <;>
           intro h <;> cases h <;>
           exact ⟨by first | exact Or.inl rfl | exact Or.inr rfl, by tauto⟩)

theorem single_filer_valid :
    ratesNonneg single_filer_tax_rates ∧ boundsNonneg single_filer_tax_rates := by
  constructor <;> intro p hp <;> fin_cases hp <;> norm_num

theorem married_filer_valid :
    ratesNonneg married_filer_tax_rates ∧ boundsNonneg married_filer_tax_rates := by
  constructor <;> intro p hp <;> fin_cases hp <;> norm_num

theorem ca_valid : ratesNonneg ca_tax_rates ∧ boundsNonneg ca_tax_rates := by
  constructor <;> intro p hp <;> fin_cases hp <;> norm_num

theorem ma_valid : ratesNonneg ma_tax_rates ∧ boundsNonneg ma_tax_rates := by
  constructor <;> intro p hp <;> fin_cases hp <;> norm_num

theorem nc_valid : ratesNonneg nc_tax_rates ∧ boundsNonneg nc_tax_rates := by
  constructor <;> intro p hp <;> fin_cases hp <;> norm_num

theorem example_valid : ratesNonneg example_tax_rates ∧ boundsNonneg example_tax_rates := by
  constructor <;> intro p hp <;> fin_cases hp <;> norm_num

theorem empty_valid : ratesNonneg ([] : List (ℚ × ℚ)) ∧ boundsNonneg ([] : List (ℚ × ℚ)) := by
  constructor <;> intro p hp <;> cases hp

theorem mkTaxTable_federal_valid {s : String} {st : Option String} {tt : TaxTable}
    (h : mkTaxTable s st = Except.ok tt) :
    ratesNonneg tt.federal ∧ boundsNonneg tt.federal := by
  rcases (mkTaxTable_cases h).1 with hf | hf <;> rw [hf]
  · exact single_filer_valid
  · exact married_filer_valid

theorem mkTaxTable_state_valid {s : String} {st : Option String} {tt : TaxTable}
    (h : mkTaxTable s st = Except.ok tt) :
    ratesNonneg tt.state ∧ boundsNonneg tt.state := by
  rcases (mkTaxTable_cases h).2 with hf | hf | hf | hf | hf <;> rw [hf]
  · exact empty_valid
  · exact ca_valid
  · exact ma_valid
  · exact nc_valid
  · exact example_valid

/-- C1: the claim says each pass walks its own table over the same
deduction-adjusted income with the state pass starting again from an income
floor of 0.  In the source the state loop reuses `previous_end` left at the
federal sentinel bound `1000 ** 5`, so for `TaxTable('single', 'MA')` at
income 50000 the flat Massachusetts tax contributes nothing: the code returns
4366 where the claimed computation (state floor restarting at 0) returns
6285. -/
theorem incometax_state_pass_divergence :
    (mkTaxTable "single" (some "MA")).map (fun tt => tt.incometax 50000) =
      Except.ok 4366 ∧
    (mkTaxTable "single" (some "MA")).map (fun tt => tt.incometaxSpec 50000) =
      Except.ok 6285 ∧
    (4366 : ℚ) ≠ 6285 := by
  have h1 : mkTaxTable "single" (some "MA") =
      Except.ok ⟨single_filer_tax_rates, ma_tax_rates, 12000⟩ := rfl
  refine ⟨?_, ?_, by norm_num⟩ <;> rw [h1] <;>
    simp only [Except.map, TaxTable.incometax, TaxTable.incometaxSpec, Except.ok.injEq] <;>
    norm_num [bracketLoop, finalBound, pyRoundQ, pyRound,
      single_filer_tax_rates, ma_tax_rates, max_def, min_def]

/-- C9: for every configured filing status and residence, `incometax` is
monotonically non-decreasing in taxable income, and returns 0 for every
taxable income at or below the standard deduction. -/
theorem incometax_monotone_and_deduction_floor (s : String) (st : Option String)
    (tt : TaxTable) (h : mkTaxTable s st = Except.ok tt) :
    (∀ x y : ℚ, x ≤ y → tt.incometax x ≤ tt.incometax y) ∧
    (∀ x : ℚ, x ≤ tt.standard_deduction → tt.incometax x = 0) := by
  obtain ⟨hfr, hfb⟩ := mkTaxTable_federal_valid h
  obtain ⟨hsr, hsb⟩ := mkTaxTable_state_valid h
  constructor
  · intro x y hxy
    unfold TaxTable.incometax
    apply pyRoundQ_mono
    have hd : x - tt.standard_deduction ≤ y - tt.standard_deduction := by linarith
    exact add_le_add (bracketLoop_mono tt.federal hfr 0 hd)
      (bracketLoop_mono tt.state hsr (finalBound 0 tt.federal) hd)
  · intro x hx
    unfold TaxTable.incometax
    have hp : x - tt.standard_deduction ≤ 0 := by linarith
    rw [bracketLoop_eq_zero tt.federal hfb _ 0 hp le_rfl,
      bracketLoop_eq_zero tt.state hsb _ _ hp
        (finalBound_nonneg tt.federal hfb 0 le_rfl)]
    norm_num [pyRoundQ, pyRound]

theorem incometax_monotone_and_deduction_floor_witness :
    (ttSingleCA.incometax 30000 ≤ ttSingleCA.incometax 40000) ∧
    ttSingleCA.incometax 5000 = 0 :=
  ⟨(incometax_monotone_and_deduction_floor "single" (some "CA") ttSingleCA
      rfl).1 30000 40000 (by norm_num),
   (incometax_monotone_and_deduction_floor "single" (some "CA") ttSingleCA
      rfl).2 5000 (by norm_num [ttSingleCA])⟩

/-- C10: for every configured TaxTable and every taxable-income input,
including arbitrarily negative inputs, `incometax` never returns a negative
amount, because each per-bracket contribution is clamped at zero before
accumulation. -/
theorem incometax_nonneg (s : String) (st : Option String) (tt : TaxTable)
    (h : mkTaxTable s st = Except.ok tt) (x : ℚ) : 0 ≤ tt.incometax x := by
  obtain ⟨hfr, _⟩ := mkTaxTable_federal_valid h
  obtain ⟨hsr, _⟩ := mkTaxTable_state_valid h
  unfold TaxTable.incometax
  apply pyRoundQ_nonneg
  have h1 := bracketLoop_nonneg tt.federal hfr (x - tt.standard_deduction) 0
  have h2 := bracketLoop_nonneg tt.state hsr (x - tt.standard_deduction)
    (finalBound 0 tt.federal)
  linarith

theorem incometax_nonneg_witness : 0 ≤ ttSingleNone.incometax (-5000) :=
  incometax_nonneg "single" none ttSingleNone rfl (-5000)

theorem loanRemaining_closed (P m p : ℚ) :
    ∀ k : ℕ, loanRemaining P m p k = P * m ^ k - p * geomSum m k := by
  intro k
  induction k with
  | zero => simp [loanRemaining, geomSum]
  | succ t ih =>
    simp only [loanRemaining, geomSum, ih]
    ring

theorem geomSum_nonneg (m : ℚ) (hm : 0 ≤ m) : ∀ k : ℕ, 0 ≤ geomSum m k := by
  intro k
  induction k with
  | zero => simp [geomSum]
  | succ t ih =>
    simp only [geomSum]
    have := mul_nonneg hm ih
    linarith

theorem geomSum_ge_one (m : ℚ) (hm : 0 ≤ m) {k : ℕ} (hk : 1 ≤ k) :
    1 ≤ geomSum m k := by
  obtain ⟨j, rfl⟩ : ∃ j, k = j + 1 := ⟨k - 1, by omega⟩
  simp only [geomSum]
  have := mul_nonneg hm (geomSum_nonneg m hm j)
  linarith

theorem exactYearlyRoot_pos (P m : ℚ) (n : ℕ) (hn : 2 ≤ n) (hm : 1 ≤ m)
    (hP : 0 < P) : 0 < exactYearlyRoot P m n := by
  unfold exactYearlyRoot
  have hm0 : (0:ℚ) < m := lt_of_lt_of_le one_pos hm
  have hpow : (0:ℚ) < m ^ (n - 1) := pow_pos hm0 _
  have hS : (0:ℚ) < geomSum m (n - 1) :=
    lt_of_lt_of_le one_pos (geomSum_ge_one m hm0.le (by omega))
  positivity

theorem loanRemaining_at_root (P m : ℚ) (n : ℕ) (hn : 2 ≤ n) (hm : 1 ≤ m) :
    loanRemaining P m (exactYearlyRoot P m n) (n - 1) = 0 := by
  have hm0 : (0:ℚ) < m := lt_of_lt_of_le one_pos hm
  have hS : (0:ℚ) < geomSum m (n - 1) :=
    lt_of_lt_of_le one_pos (geomSum_ge_one m hm0.le (by omega))
  rw [loanRemaining_closed]
  unfold exactYearlyRoot
  field_simp

theorem loanRemaining_pred_at_root (P m : ℚ) (n : ℕ) (hn : 2 ≤ n) (hm : 1 ≤ m) :
    loanRemaining P m (exactYearlyRoot P m n) (n - 2) = exactYearlyRoot P m n / m := by
  have hm0 : (0:ℚ) < m := lt_of_lt_of_le one_pos hm
  have hidx : n - 2 + 1 = n - 1 := by omega
  have hstep : loanRemaining P m (exactYearlyRoot P m n) (n - 2 + 1) =
      loanRemaining P m (exactYearlyRoot P m n) (n - 2) * m - exactYearlyRoot P m n := rfl
  rw [hidx, loanRemaining_at_root P m n hn hm] at hstep
  field_simp
  linarith

theorem loanRemaining_next_at_root (P m : ℚ) (n : ℕ) (hn : 2 ≤ n) (hm : 1 ≤ m) :
    loanRemaining P m (exactYearlyRoot P m n) n = -(exactYearlyRoot P m n) := by
  have hidx : n - 1 + 1 = n := by omega
  have hstep : loanRemaining P m (exactYearlyRoot P m n) (n - 1 + 1) =
      loanRemaining P m (exactYearlyRoot P m n) (n - 1) * m - exactYearlyRoot P m n := rfl
  rw [hidx, loanRemaining_at_root P m n hn hm] at hstep
  rw [hstep]
  ring

/-- C2: the claim says `simulateMany(runCount=N)` aggregates across exactly N
`simulateOnce` trajectories, with `runCount=1` reproducing `simulateOnce`
exactly.  In the source, `simkeys = [simnum for simnum in np.arange(1, nruns)]`
has `nruns - 1` entries, so `simmany` runs one fewer trajectory than asked:
for `nruns = 1` it runs none at all, and every per-year summary statistic is
then an aggregate of an empty list (NaN), not a `simonce` trajectory. -/
theorem simmany_trajectory_shortfall :
    simmanySimkeys 1 = [] ∧ ∀ n : ℕ, simmanyRunTotal n = n - 1 := by
  refine ⟨rfl, fun n => ?_⟩
  simp [simmanyRunTotal, simmanySimkeys]

/-- C3: the claim says an event built with `agiImpacting` unspecified gets the
flag `true` when the amount is ≥ 0 and `false` when negative.  In the source
`define_single` / `define_yearly` assign the computed default to the local
variable `agi_impacting` only and never write `self.agi_impacting`, so the
flag stays at the constructor value `False` even for positive amounts (shown
by the first conjunct, which contradicts the claim); the negative-amount case
and the explicitly-specified case behave as claimed. -/
theorem agi_default_flag_bug :
    (FinancialEvent.init.define_single 1000 "salary" 2 none 0).agi_impacting = false ∧
    (FinancialEvent.init.define_single (-1000) "rent" 2 none 0).agi_impacting = false ∧
    (FinancialEvent.init.define_single 1000 "salary" 2 (some true) 0).agi_impacting = true ∧
    ((FinancialEvent.init.define_yearly 1000 "salary" 0 0 5 none 1 "yearly").map
      (fun fe => fe.agi_impacting)) = Except.ok false ∧
    ((FinancialEvent.init.define_monthly 100 "gym" 0 0 5 none 1).map
      (fun fe => fe.agi_impacting)) = Except.ok false := by
  exact ⟨rfl, rfl, rfl, rfl, rfl⟩

/-- C4: counterexample to the claim that `findLevelPayment(P, m, n)` zeroes the
amortization recurrence at year `n` and not earlier.  The solver's objective
`pay_yearly_on_loan` loops over `np.arange(1, duration_years)` and returns
`remaining(n-1)`: for `P = 1000, m = 1, n = 2` it returns payment 1000, for
which `remaining(2) = -1000` (nowhere near 0) while `remaining(1) = 0` — the
loan is fully amortized one year early. -/
theorem find_yearly_payment_fencepost_cx :
    find_yearly_payment 1000 1 2 = some 1000 ∧
    loanRemaining 1000 1 1000 2 = -1000 ∧
    loanRemaining 1000 1 1000 1 = 0 := by
  refine ⟨?_, ?_, ?_⟩ <;>
    norm_num [find_yearly_payment, exactYearlyRoot, geomSum, pyRound, loanRemaining]

/-- C4 amended: `find_yearly_payment(P, m, n)` returns the Python-rounded
exact root of the objective `remaining(n-1)` (not `remaining(n)`): the
unrounded root zeroes the amortization recurrence at year `n - 1`, it is
nonnegative, and it lies inside the search bracket `[0, P * m^n]`
(for `m ≥ 1`); for `n ≤ 1` the payment solve fails instead of returning. -/
theorem find_yearly_payment_amended (P m : ℚ) (n : ℕ) (hn : 2 ≤ n) (hm : 1 ≤ m)
    (hP : 0 < P) :
    find_yearly_payment P m n = some (pyRound (exactYearlyRoot P m n)) ∧
    loanRemaining P m (exactYearlyRoot P m n) (n - 1) = 0 ∧
    0 ≤ exactYearlyRoot P m n ∧ exactYearlyRoot P m n ≤ P * m ^ n := by
  have hm0 : (0:ℚ) < m := lt_of_lt_of_le one_pos hm
  have hS1 : (1:ℚ) ≤ geomSum m (n - 1) := geomSum_ge_one m hm0.le (by omega)
  have hS : (0:ℚ) < geomSum m (n - 1) := lt_of_lt_of_le one_pos hS1
  refine ⟨?_, loanRemaining_at_root P m n hn hm, (exactYearlyRoot_pos P m n hn hm hP).le, ?_⟩
  · unfold find_yearly_payment
    rw [if_neg (by omega)]
  · unfold exactYearlyRoot
    rw [div_le_iff₀ hS]
    have h1 : m ^ (n - 1) ≤ m ^ n := pow_le_pow_right₀ hm (by omega)
    have h2 : P * m ^ n ≤ P * m ^ n * geomSum m (n - 1) := by
      have hnn : 0 ≤ P * m ^ n := mul_nonneg hP.le (pow_pos hm0 n).le
      nlinarith
    have h3 : P * m ^ (n - 1) ≤ P * m ^ n := by
      have := mul_le_mul_of_nonneg_left h1 hP.le
      linarith
    linarith

theorem find_yearly_payment_amended_witness :
    find_yearly_payment 1000 1 2 = some (pyRound (exactYearlyRoot 1000 1 2)) ∧
    loanRemaining 1000 1 (exactYearlyRoot 1000 1 2) (2 - 1) = 0 ∧
    0 ≤ exactYearlyRoot 1000 1 2 ∧ exactYearlyRoot 1000 1 2 ≤ 1000 * 1 ^ 2 :=
  find_yearly_payment_amended 1000 1 2 (by norm_num) (by norm_num) (by norm_num)

/-- C5: the claim says loan construction raises `InvalidParameterError`
whenever the multiplier lies outside [0.75, 1.25], and turns root-bracketing
failures into `InvalidParameterError`.  In the source the APR clause of
`define_loan`'s check is the Python chained comparison
`0.75 > apr > 1.25`, i.e. `(0.75 > apr) and (apr > 1.25)`, which no value
satisfies (second conjunct), so e.g. `apr = 2` with duration 5 passes
validation (first conjunct) and raises nothing; and a zero-duration loan's
payment solve dies with an unhandled `UnboundLocalError` inside
`pay_yearly_on_loan` (modelled `none`, third conjunct) rather than raising
any parameter error. -/
theorem define_loan_apr_check_dead :
    define_loan_invalid 0 5 2 = false ∧
    define_loan_invalid 0 (-3) 1.06 = true ∧
    (∀ apr : ℚ, (decide (min_apr > apr) && decide (apr > max_apr)) = false) ∧
    find_yearly_payment 1000 1.06 0 = none := by
  refine ⟨?_, by norm_num [define_loan_invalid], fun apr => ?_, rfl⟩
  · simp only [define_loan_invalid, Bool.or_eq_false_iff, Bool.and_eq_false_iff,
      decide_eq_false_iff_not, max_years, min_apr, max_apr]
    refine ⟨⟨by norm_num, by norm_num⟩, Or.inl (by norm_num)⟩
  · by_cases h : min_apr > apr
    · have h2 : ¬ (apr > max_apr) := by
        simp only [min_apr] at h
        simp only [max_apr]
        linarith
      rw [decide_eq_false h2, Bool.and_false]
    · rw [decide_eq_false h, Bool.false_and]

/-- C6: counterexample to the loan round-trip claim's lower bound.  For
`P = 2, m = 1, n = 3` the source's rounded payment is 1 and `define_loan`'s
schedule is `{0: -1, 1: -1, 2: -2}` — 4 paid on a zero-interest loan of 2 —
so the balance after the final-year payoff adjustment is `-2`, strictly below
`-payment = -1`: the remaining principal is ≤ 0 as claimed, but the claimed
`> -payment` fails, the loan overshooting by two full payments. -/
theorem loan_payoff_strict_bound_cx :
    loanPostPayoffBalance 2 1 3 = some (-2) ∧
    find_yearly_payment 2 1 3 = some 1 ∧
    (-2 : ℚ) < -((1 : ℤ) : ℚ) := by
  refine ⟨?_, ?_, by norm_num⟩ <;>
    norm_num [loanPostPayoffBalance, find_yearly_payment, pay_yearly_on_loan,
      exactYearlyRoot, geomSum, pyRound, loanRemaining, pyInt]

/-- C6 amended: `define_loan` schedules one payment-year more than the
solver's amortization horizon (`remaining(n-1) = 0`), so the payoff
adjustment systematically overpays.  With the exact (unrounded) solver
payment, `m ≥ 1` and `n ≥ 3`, the balance after the full schedule,
`remaining(n) - int(remaining(n-2))`, is ≤ -payment — never `> -payment` as
the claim put it — and ≥ -2·payment: the loan always reaches ≤ 0 by its
nominal end, overshooting by between one and two payments (and payment
rounding can perturb the balance further). -/
theorem loan_payoff_amended (P m : ℚ) (n : ℕ) (hn : 3 ≤ n) (hm : 1 ≤ m)
    (hP : 0 < P) :
    loanRemaining P m (exactYearlyRoot P m n) n -
      ((pyInt (loanRemaining P m (exactYearlyRoot P m n) (n - 2)) : ℤ) : ℚ) ≤
        -(exactYearlyRoot P m n) ∧
    -(2 * exactYearlyRoot P m n) ≤
      loanRemaining P m (exactYearlyRoot P m n) n -
        ((pyInt (loanRemaining P m (exactYearlyRoot P m n) (n - 2)) : ℤ) : ℚ) := by
  have hn2 : 2 ≤ n := by omega
  have hm0 : (0:ℚ) < m := lt_of_lt_of_le one_pos hm
  have hp : 0 < exactYearlyRoot P m n := exactYearlyRoot_pos P m n hn2 hm hP
  have hnext := loanRemaining_next_at_root P m n hn2 hm
  have hpred := loanRemaining_pred_at_root P m n hn2 hm
  rw [hnext, hpred]
  have hdiv : 0 ≤ exactYearlyRoot P m n / m := (div_nonneg hp.le hm0.le)
  have hint1 : (0:ℤ) ≤ pyInt (exactYearlyRoot P m n / m) := pyInt_nonneg _ hdiv
  have hint2 : ((pyInt (exactYearlyRoot P m n / m) : ℤ) : ℚ) ≤
      exactYearlyRoot P m n / m := pyInt_le_self _ hdiv
  have hds : exactYearlyRoot P m n / m ≤ exactYearlyRoot P m n :=
    div_le_self hp.le hm
  constructor
  · have : (0:ℚ) ≤ ((pyInt (exactYearlyRoot P m n / m) : ℤ) : ℚ) := by
      exact_mod_cast hint1
    linarith
  · linarith

theorem loan_payoff_amended_witness :
    loanRemaining 900 2 (exactYearlyRoot 900 2 3) 3 -
      ((pyInt (loanRemaining 900 2 (exactYearlyRoot 900 2 3) (3 - 2)) : ℤ) : ℚ) ≤
        -(exactYearlyRoot 900 2 3) ∧
    -(2 * exactYearlyRoot 900 2 3) ≤
      loanRemaining 900 2 (exactYearlyRoot 900 2 3) 3 -
        ((pyInt (loanRemaining 900 2 (exactYearlyRoot 900 2 3) (3 - 2)) : ℤ) : ℚ) :=
  loan_payoff_amended 900 2 3 (by norm_num) (by norm_num) (by norm_num)

theorem change_state_lookup_eq (o : Option String) :
    change_state_lookup o =
      if recognizedState o then Except.ok (stateTableOf o)
      else Except.error ConfigError.configError := by
  cases o with
  | none => rfl
  | some s =>
    simp only [change_state_lookup, recognizedState, stateTableOf]
    cases hst : stateRatesFor (pyUpper s) with
    | none => simp
    | some t => simp

theorem change_status_lookup_eq (o : Option String) :
    change_status_lookup o =
      if recognizedStatus o then
        Except.ok (statusFederal o, statusDeduction o)
      else Except.error ConfigError.configError := by
  cases o with
  | none => rfl
  | some s =>
    by_cases h1 : s = "single"
    · subst h1; rfl
    · by_cases h2 : s = "married"
      · subst h2; rfl
      · simp [change_status_lookup, recognizedStatus, statusFederal,
          statusDeduction, h1, h2]

/-- C8: `set_from_fm(model, year)` fails with a configuration error exactly
when the year's filing status is not a known status key or the year's
residence is a string whose uppercase is not a known state key (a missing
residence, `None`, is accepted and clears the state table); otherwise it
succeeds and reconfigures the federal table, state table and standard
deduction selected by that year's status and residence. -/
theorem set_from_fm_characterization (residences statusMap : ℕ → Option String)
    (year : ℕ) :
    TaxTable.set_from_fm residences statusMap year =
      if recognizedState (residences year) && recognizedStatus (statusMap year) then
        Except.ok ⟨statusFederal (statusMap year), stateTableOf (residences year),
          statusDeduction (statusMap year)⟩
      else Except.error ConfigError.configError := by
  unfold TaxTable.set_from_fm
  rw [change_state_lookup_eq, change_status_lookup_eq]
  by_cases h1 : recognizedState (residences year) = true <;>
    by_cases h2 : recognizedStatus (statusMap year) = true <;>
    simp [h1, h2]

/-- C7: counterexample to the claim that every net-worth value produced by the
single-run simulator is capped at the optional ceiling.  `simonce` in
GLFinancial.py applies no ceiling at all: with no events, a deterministic
return of 1.06 and initial net worth 9,000,000 the year-1 net worth is
9,540,000, already above the only ceiling configured anywhere in the code
(the tax-variant default `max_nw = 8 * 1000 * 1000`), and it keeps compounding
unboundedly. -/
theorem simonce_networth_uncapped_cx :
    (simonceTraj fmNoEvents 9000000 1.06 1).map (fun r => r.netWorth) =
      Except.ok 9540000 ∧
    (8000000 : ℚ) < 9540000 := by
  refine ⟨?_, by norm_num⟩
  have hset : TaxTable.set_from_fm (fun _ => none) (fun _ => some "single") 1 =
      Except.ok ttSingleNone := rfl
  simp only [simonceTraj, simonceStep, simonceSeed, fmNoEvents,
    List.map_nil, List.sum_nil, Except.map]
  norm_num [hset]

/-- C7 amended: the optional ceiling exists only in the tax-variant engine.
There, for every cashflow model, ceiling, initial net worth and deterministic
return, every year from 1 on stores
`netWorth = min(max_nw, int(prior + interest + priorExplicitNWGrowth +
priorExcessCash))`, hence every such net-worth value is ≤ the ceiling;
GLFinancial's `simonce` computes its net-worth recurrence with no cap
(see the counterexample). -/
theorem taxsim_networth_capped (max_nw : ℚ) (cfm : CashflowModel)
    (initial_nw nw_apr_avg : ℚ) (t : ℕ) (ht : 1 ≤ t) :
    (taxSimTraj max_nw cfm initial_nw nw_apr_avg t).netWorth ≤ max_nw := by
  obtain ⟨s, rfl⟩ : ∃ s, t = s + 1 := ⟨t - 1, by omega⟩
  exact min_le_left _ _

theorem taxsim_networth_capped_witness :
    (1 ≤ 1) ∧
    (taxSimTraj 8000000 cfmEmpty 0 1.06 1).netWorth ≤ 8000000 :=
  ⟨le_refl 1, taxsim_networth_capped 8000000 cfmEmpty 0 1.06 1 (le_refl 1)⟩
